import Mathlib

/-!
Verification of the ai-tour-guide conversation lifecycle core.

The development shallowly embeds the three modules of the core:
* `useWakeWordDetection` (the wake-word gate owning the listening device and
  the silence timer),
* `useRealtimeAgent` (the conversational link with its synchronous connect
  lock), and
* the coordinator page wiring the two together.

React `useState` setters are modelled as direct field updates on explicit
state records; every handler is a pure function, and handlers whose internal
ordering matters (the wake transition and the silence-timeout transition)
are modelled as lists of micro-states so that "at the same logical instant"
claims can be stated about every intermediate state the handler passes
through.
-/

namespace TourGuide

/-- Case-insensitive-ready substring test on character lists: JS
`String.prototype.includes`. -/
def hasSub (needle : List Char) : List Char → Bool
  | [] => needle.isEmpty
  | c :: t => needle.isPrefixOf (c :: t) || hasSub needle t

/-- JS `String.prototype.toLowerCase`, character-wise. -/
def lowerChars (cs : List Char) : List Char := cs.map Char.toLower

/-- JS `String.prototype.trim`: whitespace stripped from both ends. -/
def trimChars (cs : List Char) : List Char :=
  ((cs.dropWhile Char.isWhitespace).reverse.dropWhile Char.isWhitespace).reverse

/-- Hook configuration: `wakeWord` plus the silence timeout, whose default
parameter value in `useWakeWordDetection` is 10000 ms. -/
structure Config where
  wakeWord : String
  silenceTimeoutMs : Nat := 10000

/-- The wake-word check of `handleSpeechResult`: the joined transcript is
lower-cased and trimmed, then tested for the lower-cased wake word as a
substring. -/
def matchesWake (cfg : Config) (raw : String) : Bool :=
  hasSub (lowerChars cfg.wakeWord.toList) (trimChars (lowerChars raw.toList))

/-- State of the wake-word gate (`useWakeWordDetection`): the four `useState`
cells, the recognition ref (availability of the host capability plus whether
the underlying device is currently running), the silence-timer ref
(`some d` iff a countdown of `d` ms is pending), and ghost event counters
recording tone plays, wake-callback firings, timeout-callback firings and
fresh countdown starts. -/
structure WakeState where
  isListening : Bool
  wakeWordDetected : Bool
  conversationActive : Bool
  error : Option String
  recognitionAvailable : Bool
  recognitionRunning : Bool
  silenceTimer : Option Nat
  toneCount : Nat
  wakeCallbackCount : Nat
  timeoutCallbackCount : Nat
  timerStartCount : Nat
  deriving DecidableEq, Repr

/-- Gate state right after the mount effect: if the host exposes no
speech-recognition capability the error cell is set once, and the
recognition ref stays null. -/
def initGate (avail : Bool) : WakeState :=
  { isListening := false
    wakeWordDetected := false
    conversationActive := false
    error := if avail then none else some "Speech recognition not supported in this browser"
    recognitionAvailable := avail
    recognitionRunning := false
    silenceTimer := none
    toneCount := 0
    wakeCallbackCount := 0
    timeoutCallbackCount := 0
    timerStartCount := 0 }

/-- `resetSilenceTimer`: clears any pending countdown and schedules a fresh
full-duration one; the ghost counter records one more fresh countdown start. -/
def resetSilenceTimer (cfg : Config) (s : WakeState) : WakeState :=
  { s with silenceTimer := some cfg.silenceTimeoutMs
           timerStartCount := s.timerStartCount + 1 }

/-- `pauseSilenceTimer`: discards the pending countdown outright. -/
def pauseSilenceTimer (s : WakeState) : WakeState :=
  { s with silenceTimer := none }

/-- `resumeSilenceTimer`: delegates to `resetSilenceTimer`, i.e. always a
brand-new full-duration countdown. -/
def resumeSilenceTimer (cfg : Config) (s : WakeState) : WakeState :=
  resetSilenceTimer cfg s

/-- `startListening`: clears the error cell first, then — only if the
recognition ref is non-null — starts the device and records listening. -/
def startListening (s : WakeState) : WakeState :=
  let s1 := { s with error := none }
  if s1.recognitionAvailable then
    { s1 with recognitionRunning := true, isListening := true }
  else s1

/-- `stopListening`: stops the device, clears the listening and
wake/conversation flags, and cancels any pending countdown. -/
def stopListening (s : WakeState) : WakeState :=
  { s with recognitionRunning := false
           isListening := false
           conversationActive := false
           wakeWordDetected := false
           silenceTimer := none }

/-- `clearError` of the gate. -/
def gateClearError (s : WakeState) : WakeState :=
  { s with error := none }

/-- Connection status derived from the two state booleans of
`useRealtimeAgent`. -/
inductive Status
  | Disconnected
  | Connecting
  | Connected
  deriving DecidableEq, Repr

/-- State of the conversational link (`useRealtimeAgent`): the `useState`
cells, the agent ref (`agentInit`), the session ref (`some id` iff a session
object is retained), the synchronous `isConnectingRef` lock, and a ghost
counter of transport-session establishment attempts. -/
structure LinkState where
  isConnected : Bool
  isConnecting : Bool
  isSpeaking : Bool
  error : Option String
  agentInit : Bool
  session : Option Nat
  connectLock : Bool
  establishCount : Nat
  deriving DecidableEq, Repr

def LinkState.status (l : LinkState) : Status :=
  if l.isConnected then .Connected
  else if l.isConnecting then .Connecting
  else .Disconnected

/-- Link state after the mount effect: agent created, nothing connected. -/
def initLink : LinkState :=
  { isConnected := false
    isConnecting := false
    isSpeaking := false
    error := none
    agentInit := true
    session := none
    connectLock := false
    establishCount := 0 }

/-- Outcome of the two suspension points of `connect`: the credential fetch
and the transport-session establishment. -/
inductive ConnectEnv
  | tokenFail
  | establishFail
  | success
  deriving DecidableEq, Repr

/-- The synchronous prelude of `connect`, up to (not including) the first
`await`: the not-initialized fast-fail, the lock/session check, and the
synchronous setting of the lock. Returns the new state and whether the call
proceeded past the lock check. -/
def connectPrelude (l : LinkState) : LinkState × Bool :=
  if !l.agentInit then
    ({ l with error := some "Agent not initialized" }, false)
  else if l.connectLock || l.session.isSome then
    (l, false)
  else
    ({ l with connectLock := true, isConnecting := true, error := none }, true)

/-- A whole synchronous turn issuing `n` `connect()` calls back to back:
each call runs its synchronous prelude before the next call starts (the
single-threaded event loop). Returns the final state and how many calls
proceeded past the lock check. -/
def connectTurn : Nat → LinkState → LinkState × Nat
  | 0, l => (l, 0)
  | n + 1, l =>
    let p := connectPrelude l
    let r := connectTurn n p.1
    (r.1, (if p.2 then 1 else 0) + r.2)

/-- A complete `connect()` call, with the outcome of its two suspension
points given by `env`. On credential failure the catch block clears the lock
and surfaces the error with the session ref still null; the session object
is assigned *before* establishment is awaited, so on establishment failure
the catch block clears the lock and surfaces the error but the session ref
keeps the partially-created object; on success the lock intentionally stays
set until an explicit disconnect. -/
def connect (env : ConnectEnv) (l : LinkState) : LinkState :=
  let p := connectPrelude l
  if !p.2 then p.1
  else
    match env with
    | .tokenFail =>
        { p.1 with error := some "Failed to get authentication token"
                   isConnecting := false
                   connectLock := false }
    | .establishFail =>
        let l2 := { p.1 with session := some p.1.establishCount
                             establishCount := p.1.establishCount + 1 }
        { l2 with error := some "session establishment failed"
                  isConnecting := false
                  connectLock := false }
    | .success =>
        let l2 := { p.1 with session := some p.1.establishCount
                             establishCount := p.1.establishCount + 1 }
        { l2 with isConnected := true, isConnecting := false }

/-- `disconnect`: closes and drops the session if any, resets the status
booleans, clears the lock. -/
def disconnect (l : LinkState) : LinkState :=
  { l with session := none
           isConnected := false
           isConnecting := false
           isSpeaking := false
           connectLock := false }

/-- `clearError` of the link. -/
def linkClearError (l : LinkState) : LinkState :=
  { l with error := none }

/-- Composed state of the coordinator page: the two hooks. -/
structure SystemState where
  gate : WakeState
  link : LinkState
  deriving DecidableEq, Repr

/-- System state after mount, `avail` being whether the host exposes a
speech-recognition capability. -/
def initSystem (avail : Bool) : SystemState :=
  { gate := initGate avail, link := initLink }

/-- The micro-states the wake transition of `handleSpeechResult` passes
through, in source order: set `wakeWordDetected`, set `conversationActive`,
stop the listening device (guarded on the recognition ref), play the
confirmation tone, start a fresh silence timer, fire the wake callback.
The wake callback only *schedules* `connect()` 800 ms later, so the link is
untouched throughout. -/
def wakeTraceSys (cfg : Config) (s : SystemState) : List SystemState :=
  let s1 := { s with gate := { s.gate with wakeWordDetected := true } }
  let s2 := { s1 with gate := { s1.gate with conversationActive := true } }
  let s3 := if s2.gate.recognitionAvailable then
              { s2 with gate := { s2.gate with recognitionRunning := false } }
            else s2
  let s4 := { s3 with gate := { s3.gate with toneCount := s3.gate.toneCount + 1 } }
  let s5 := { s4 with gate := resetSilenceTimer cfg s4.gate }
  let s6 := { s5 with gate := { s5.gate with wakeCallbackCount := s5.gate.wakeCallbackCount + 1 } }
  [s1, s2, s3, s4, s5, s6]

/-- `handleSpeechResult` on a raw transcript: the wake branch runs only when
neither `conversationActive` nor `wakeWordDetected` is set and the wake word
matches; otherwise the handler is a no-op. -/
def handleSpeechResultSys (cfg : Config) (raw : String) (s : SystemState) :
    List SystemState :=
  if !s.gate.conversationActive && !s.gate.wakeWordDetected && matchesWake cfg raw then
    wakeTraceSys cfg s
  else [s]

/-- The micro-states of the silence-timeout handler, in source order: clear
the conversation flag, clear the wake flag, *re-start the listening device*
(guarded on the recognition ref and `isListening`), and only then fire the
timeout callback, which the coordinator wires to `disconnect()`. -/
def expireTraceSys (s : SystemState) : List SystemState :=
  let s1 := { s with gate := { s.gate with silenceTimer := none
                                           conversationActive := false } }
  let s2 := { s1 with gate := { s1.gate with wakeWordDetected := false } }
  let s3 := if s2.gate.recognitionAvailable && s2.gate.isListening then
              { s2 with gate := { s2.gate with recognitionRunning := true } }
            else s2
  let s4 := { s3 with gate := { s3.gate with timeoutCallbackCount := s3.gate.timeoutCallbackCount + 1 }
                      link := disconnect s3.link }
  [s1, s2, s3, s4]

/-- External events driving the composed system: the UI toggle, transcript
delivery, the settle-delayed `connect()` firing, silence-timer expiry, the
transport boundary events (wired by the page to timer pause/resume, with
user-speech-stopped deliberately wired to nothing), and the spontaneous
end-of-stream restart. -/
inductive Event
  | startL
  | stopClick
  | transcript (raw : String)
  | settledConnect (env : ConnectEnv)
  | expire
  | audioStart
  | audioStopped
  | userStart
  | userStop
  | recogEnd
  | clearErrors
  deriving DecidableEq, Repr

/-- The micro-state trace an event's handler passes through. Single-step
handlers contribute one micro-state. -/
def eventTrace (cfg : Config) (s : SystemState) : Event → List SystemState
  | .startL => [{ s with gate := startListening s.gate }]
  | .stopClick =>
      let s1 := { s with gate := stopListening s.gate }
      [s1, { s1 with link := disconnect s1.link }]
  | .transcript raw => handleSpeechResultSys cfg raw s
  | .settledConnect env => [{ s with link := connect env s.link }]
  | .expire => if s.gate.silenceTimer.isSome then expireTraceSys s else [s]
  | .audioStart =>
      [{ s with link := { s.link with isSpeaking := true }
                gate := pauseSilenceTimer s.gate }]
  | .audioStopped =>
      [{ s with link := { s.link with isSpeaking := false }
                gate := resumeSilenceTimer cfg s.gate }]
  | .userStart => [{ s with gate := pauseSilenceTimer s.gate }]
  | .userStop => [s]
  | .recogEnd =>
      if s.gate.isListening && !s.gate.conversationActive then
        [{ s with gate := { s.gate with recognitionRunning := true } }]
      else [s]
  | .clearErrors =>
      [{ s with gate := gateClearError s.gate, link := linkClearError s.link }]

/-- State at the end of one event's handler. -/
def stepEnd (cfg : Config) (e : Event) (s : SystemState) : SystemState :=
  (eventTrace cfg s e).getLastD s

/-- Final state after a sequence of events. -/
def runEnd (cfg : Config) : List Event → SystemState → SystemState
  | [], s => s
  | e :: es, s => runEnd cfg es (stepEnd cfg e s)

/-- Every micro-state visited while processing a sequence of events. -/
def runMicro (cfg : Config) : List Event → SystemState → List SystemState
  | [], _ => []
  | e :: es, s => eventTrace cfg s e ++ runMicro cfg es (stepEnd cfg e s)

/-- The configuration the page builds with the default wake word. -/
def cfg0 : Config := { wakeWord := "guide" }

/-- A state from which a second `connect()` call cannot proceed past the
checks: agent missing, lock held, or a session object retained. -/
def connectBlocked (l : LinkState) : Bool :=
  !l.agentInit || l.connectLock || l.session.isSome

/-- A full conversation cycle up to the instant the silence timer expires:
start listening, wake on the default phrase, settle-delayed successful
connect. -/
def evsC1 : List Event :=
  [.startL, .transcript "hey guide", .settledConnect .success]

/-- The reachable state right before silence-timer expiry in that cycle:
listening wanted, device handed off, link Connected, countdown pending. -/
def sC1 : SystemState := runEnd cfg0 evsC1 (initSystem true)

/-- A reachable state with an active conversation (used to instantiate
conversation-active claims at a concrete input). -/
def sActive : SystemState := stepEnd cfg0 (.transcript "hey guide") (runEnd cfg0 [.startL] (initSystem true))

/-- `n` user-speech started/stopped pairs, as delivered by the transport. -/
def userPairs : Nat → List Event
  | 0 => []
  | n + 1 => Event.userStart :: Event.userStop :: userPairs n

/-! ## Helper lemmas -/

theorem connectPrelude_blocked_snd (l : LinkState) (h : connectBlocked l = true) :
    (connectPrelude l).2 = false := by
  cases hA : l.agentInit <;> cases hL : l.connectLock <;> cases hS : l.session <;>
    simp_all [connectBlocked, connectPrelude]

theorem connectBlocked_prelude (l : LinkState) (h : connectBlocked l = true) :
    connectBlocked (connectPrelude l).1 = true := by
  cases hA : l.agentInit <;> cases hL : l.connectLock <;> cases hS : l.session <;>
    simp_all [connectBlocked, connectPrelude]

theorem connectPrelude_proceed_lock (l : LinkState)
    (h : (connectPrelude l).2 = true) : (connectPrelude l).1.connectLock = true := by
  cases hA : l.agentInit <;> cases hL : l.connectLock <;> cases hS : l.session <;>
    simp_all [connectPrelude]

theorem connectPrelude_establishCount (l : LinkState) :
    (connectPrelude l).1.establishCount = l.establishCount := by
  simp only [connectPrelude]
  split
  · rfl
  · split
    · rfl
    · rfl

theorem connectTurn_blocked (n : Nat) (l : LinkState) (h : connectBlocked l = true) :
    (connectTurn n l).2 = 0 := by
  induction n generalizing l with
  | zero => rfl
  | succ n ih =>
      simp only [connectTurn]
      rw [connectPrelude_blocked_snd l h]
      simpa using ih _ (connectBlocked_prelude l h)

theorem connectTurn_establishCount (n : Nat) (l : LinkState) :
    (connectTurn n l).1.establishCount = l.establishCount := by
  induction n generalizing l with
  | zero => rfl
  | succ n ih =>
      simp only [connectTurn]
      rw [ih, connectPrelude_establishCount]

theorem startListening_flags (g : WakeState) :
    (startListening g).wakeWordDetected = g.wakeWordDetected ∧
    (startListening g).conversationActive = g.conversationActive := by
  cases hA : g.recognitionAvailable <;> simp [startListening, hA]

theorem runEnd_append (cfg : Config) (es1 es2 : List Event) (s : SystemState) :
    runEnd cfg (es1 ++ es2) s = runEnd cfg es2 (runEnd cfg es1 s) := by
  induction es1 generalizing s with
  | nil => rfl
  | cons e es ih => simp [runEnd, ih]

theorem stepEnd_userStart_count (cfg : Config) (s : SystemState) :
    (stepEnd cfg .userStart s).gate.timerStartCount = s.gate.timerStartCount := rfl

theorem stepEnd_userStop_eq (cfg : Config) (s : SystemState) :
    stepEnd cfg .userStop s = s := rfl

theorem stepEnd_audioStart_count (cfg : Config) (s : SystemState) :
    (stepEnd cfg .audioStart s).gate.timerStartCount = s.gate.timerStartCount := rfl

theorem stepEnd_audioStopped_count (cfg : Config) (s : SystemState) :
    (stepEnd cfg .audioStopped s).gate.timerStartCount = s.gate.timerStartCount + 1 := rfl

theorem userPairs_count (cfg : Config) (n : Nat) (s : SystemState) :
    (runEnd cfg (userPairs n) s).gate.timerStartCount = s.gate.timerStartCount := by
  induction n generalizing s with
  | zero => rfl
  | succ n ih =>
      show (runEnd cfg (userPairs n)
        (stepEnd cfg .userStop (stepEnd cfg .userStart s))).gate.timerStartCount = _
      rw [stepEnd_userStop_eq, ih, stepEnd_userStart_count]

theorem transcript_noop_when_active (cfg : Config) (raw : String) (s : SystemState)
    (h : s.gate.conversationActive = true) :
    stepEnd cfg (.transcript raw) s = s := by
  simp [stepEnd, eventTrace, handleSpeechResultSys, h]

theorem stepEnd_flags_agree (cfg : Config) (e : Event) (s : SystemState)
    (h : s.gate.wakeWordDetected = s.gate.conversationActive) :
    (stepEnd cfg e s).gate.wakeWordDetected =
      (stepEnd cfg e s).gate.conversationActive := by
  cases e with
  | startL =>
      show (startListening s.gate).wakeWordDetected = (startListening s.gate).conversationActive
      rw [(startListening_flags s.gate).1, (startListening_flags s.gate).2, h]
  | stopClick => rfl
  | transcript raw =>
      simp only [stepEnd, eventTrace, handleSpeechResultSys]
      split
      · cases hA : s.gate.recognitionAvailable <;>
          simp [wakeTraceSys, resetSilenceTimer, hA]
      · exact h
  | settledConnect env => exact h
  | expire =>
      simp only [stepEnd, eventTrace]
      split
      · cases hB : s.gate.recognitionAvailable && s.gate.isListening <;>
          simp [expireTraceSys, hB]
      · exact h
  | audioStart => exact h
  | audioStopped => exact h
  | userStart => exact h
  | userStop => exact h
  | recogEnd =>
      simp only [stepEnd, eventTrace]
      split
      · exact h
      · exact h
  | clearErrors => exact h

/-! ## Claims -/

/-- C2: For every sequence of `connect()` calls issued within the same
synchronous turn, at most one proceeds past the lock check — the lock is set
synchronously before the first suspension point, and the synchronous turn
itself performs no transport establishment, so the (at most one) proceeding
call's continuation establishes the session at most once per cycle. -/
theorem connect_lock_at_most_one_proceeds (n : Nat) (l : LinkState) :
    (connectTurn n l).2 ≤ 1 ∧
    ((connectPrelude l).2 = true → (connectPrelude l).1.connectLock = true) ∧
    (connectTurn n l).1.establishCount = l.establishCount := by
  refine ⟨?_, connectPrelude_proceed_lock l, connectTurn_establishCount n l⟩
  induction n generalizing l with
  | zero => simp [connectTurn]
  | succ n ih =>
      simp only [connectTurn]
      cases h : (connectPrelude l).2 with
      | true =>
          have hb : connectBlocked (connectPrelude l).1 = true := by
            simp [connectBlocked, connectPrelude_proceed_lock l h]
          simp [h, connectTurn_blocked n _ hb]
      | false =>
          simpa [h] using ih (connectPrelude l).1

/-- C2 witness: three back-to-back `connect()` calls from the freshly
mounted link state let at most one call proceed past the lock check. -/
theorem connect_lock_at_most_one_proceeds_witness :
    (connectTurn 3 initLink).2 ≤ 1 :=
  (connect_lock_at_most_one_proceeds 3 initLink).1

/-- C3 counterexample: from the freshly mounted state, a `connect()` that
fails at session establishment retains the partially-created session object,
and a subsequent `connect()` (even one that would succeed) is blocked by the
session check and never reaches Connected. -/
theorem connect_establish_failure_retains_session :
    (connect .establishFail initLink).session ≠ none ∧
    (connect .success (connect .establishFail initLink)).isConnected = false := by
  decide

/-- C3 (amended): when `connect()` fails at credential fetch the lock is
cleared, the error surfaced, no session object is retained, and a subsequent
connect can succeed; when it fails at session establishment the lock is
cleared and the error surfaced, but the partially-created session object is
retained and a subsequent `connect()` is a no-op blocked by the session
check. -/
theorem connect_failure_paths (l : LinkState) (h1 : l.agentInit = true)
    (h2 : l.connectLock = false) (h3 : l.session = none) :
    ((connect .tokenFail l).connectLock = false ∧
     (connect .tokenFail l).error.isSome = true ∧
     (connect .tokenFail l).session = none ∧
     (connect .success (connect .tokenFail l)).isConnected = true) ∧
    ((connect .establishFail l).connectLock = false ∧
     (connect .establishFail l).error.isSome = true ∧
     (connect .establishFail l).session.isSome = true ∧
     connect .success (connect .establishFail l) = connect .establishFail l) := by
  simp [connect, connectPrelude, h1, h2, h3]

/-- C3 witness: the amended failure-path behavior at the freshly mounted
link state. -/
theorem connect_failure_paths_witness :
    (connect .tokenFail initLink).session = none ∧
    (connect .success (connect .tokenFail initLink)).isConnected = true ∧
    (connect .establishFail initLink).session.isSome = true :=
  ⟨(connect_failure_paths initLink rfl rfl rfl).1.2.2.1,
   (connect_failure_paths initLink rfl rfl rfl).1.2.2.2,
   (connect_failure_paths initLink rfl rfl rfl).2.2.2.1⟩

/-- C5: pausing the silence timer then resuming it always yields a pending
countdown of the full configured duration, whatever countdown (if any) was
pending before the pause; pause discards the pending countdown outright, and
the hook's default duration is 10000 ms. -/
theorem pause_then_resume_full_duration (cfg : Config) (s : WakeState) :
    (resumeSilenceTimer cfg (pauseSilenceTimer s)).silenceTimer = some cfg.silenceTimeoutMs ∧
    (pauseSilenceTimer s).silenceTimer = none ∧
    (∀ w : String, ({ wakeWord := w } : Config).silenceTimeoutMs = 10000) := by
  simp [resumeSilenceTimer, resetSilenceTimer, pauseSilenceTimer]

/-- C8 counterexample: on a host with no speech-recognition capability the
error is set by the mount effect, but `startListening()` *clears* it and
sets no new one — after `startListening()` the error state is empty, so the
claimed persistent post-`startListening` error state does not hold. -/
theorem startListening_clears_unsupported_error :
    ((initGate false).error).isSome = true ∧
    (startListening (initGate false)).error = none ∧
    (startListening (initGate false)).isListening = false := by
  decide

/-- C8 (amended): on a host with no speech-recognition capability the
unsupported-capability error is surfaced once by the mount effect (set as
error state, nothing thrown); `startListening()` on such a host never
activates the device or reports listening, but instead of preserving or
setting the error it resets the error state to empty. -/
theorem startListening_unsupported (s : WakeState) (h : s.recognitionAvailable = false) :
    (initGate false).error = some "Speech recognition not supported in this browser" ∧
    startListening s = { s with error := none } := by
  constructor
  · rfl
  · simp [startListening, h]

/-- C8 witness: the amended behavior at the freshly mounted unsupported-host
gate state. -/
theorem startListening_unsupported_witness :
    startListening (initGate false) = { initGate false with error := none } :=
  (startListening_unsupported (initGate false) rfl).2

/-- C1 counterexample: the reachable cycle start-listening → wake on
"hey guide" → settle-delayed successful connect → silence expiry passes
through a logical instant at which the listening device is running while the
connection status is still Connected — the timeout handler re-starts the
device *before* firing the timeout callback that disconnects. -/
theorem device_active_while_connected_at_timeout :
    (runMicro cfg0 (evsC1 ++ [.expire]) (initSystem true)).any
      (fun t => t.gate.recognitionRunning && t.link.isConnected) = true := by
  decide

/-- C1 (amended): on every wake transition the listening device is stopped
before `connect()` is invoked (the transcript handler never touches the
link, and in every micro-state in which the wake callback has fired the
device is already stopped); on the timeout transition, however, the
listening device is re-activated *before* the connection is disconnected —
the handler's trace visits an instant with the device running while status
is Connected, and ends with the device running and the link disconnected. -/
theorem device_then_connect_but_device_before_disconnect (cfg : Config)
    (s : SystemState) (hA : s.gate.recognitionAvailable = true)
    (hL : s.gate.isListening = true) (hC : s.link.isConnected = true)
    (hT : s.gate.silenceTimer.isSome = true) :
    (∀ raw : String, ∀ t ∈ eventTrace cfg s (.transcript raw),
        t.link = s.link ∧
        (t.gate.wakeCallbackCount ≠ s.gate.wakeCallbackCount →
          t.gate.recognitionRunning = false)) ∧
    (eventTrace cfg s .expire).any
        (fun t => t.gate.recognitionRunning && t.link.isConnected) = true ∧
    (stepEnd cfg .expire s).link.isConnected = false ∧
    (stepEnd cfg .expire s).gate.recognitionRunning = true := by
  refine ⟨?_, ?_, ?_, ?_⟩
  · intro raw t ht
    simp only [eventTrace, handleSpeechResultSys] at ht
    split at ht
    · simp only [wakeTraceSys, hA, if_true, resetSilenceTimer, List.mem_cons,
        List.mem_singleton, List.not_mem_nil, or_false] at ht
      rcases ht with rfl | rfl | rfl | rfl | rfl | rfl <;> simp
    · simp only [List.mem_singleton] at ht
      subst ht
      simp
  · simp [eventTrace, hT, expireTraceSys, hA, hL, hC]
  · simp [stepEnd, eventTrace, hT, expireTraceSys, hA, hL, disconnect]
  · simp [stepEnd, eventTrace, hT, expireTraceSys, hA, hL]

/-- C1 witness: the amended timeout-side ordering at the concrete reachable
pre-expiry state of the default cycle. -/
theorem device_ordering_witness :
    (stepEnd cfg0 .expire sC1).link.isConnected = false ∧
    (stepEnd cfg0 .expire sC1).gate.recognitionRunning = true :=
  (device_then_connect_but_device_before_disconnect cfg0 sC1
    (by decide) (by decide) (by decide) (by decide)).2.2

/-- C4: while the conversation is active, any sequence of transcript events
leaves the gate state unchanged — in particular the wake callback fires
exactly zero times. -/
theorem no_wake_during_conversation (cfg : Config) (s : SystemState)
    (h : s.gate.conversationActive = true) (raws : List String) :
    runEnd cfg (raws.map Event.transcript) s = s ∧
    (runEnd cfg (raws.map Event.transcript) s).gate.wakeCallbackCount =
      s.gate.wakeCallbackCount := by
  have main : runEnd cfg (raws.map Event.transcript) s = s := by
    induction raws with
    | nil => rfl
    | cons r rs ih =>
        show runEnd cfg (rs.map Event.transcript) (stepEnd cfg (.transcript r) s) = s
        rw [transcript_noop_when_active cfg r s h]
        exact ih
  exact ⟨main, by rw [main]⟩

/-- C4 witness: a transcript containing the trigger phrase delivered in the
reachable conversation-active state fires no wake callback. -/
theorem no_wake_during_conversation_witness :
    (runEnd cfg0 (["hey guide"].map Event.transcript) sActive).gate.wakeCallbackCount =
      sActive.gate.wakeCallbackCount :=
  (no_wake_during_conversation cfg0 sActive (by decide) ["hey guide"]).2

/-- C6: for any N user-speech started/stopped pairs followed by one
agent-audio started/stopped pair, exactly one fresh countdown start occurs
and only at the agent-audio-stopped event: the count of fresh starts is
unchanged through the N pairs, still unchanged after agent-audio-started,
and exactly one greater after agent-audio-stopped. -/
theorem one_fresh_start_only_after_audio_stop (cfg : Config) (s : SystemState)
    (n : Nat) :
    (runEnd cfg (userPairs n) s).gate.timerStartCount = s.gate.timerStartCount ∧
    (runEnd cfg (userPairs n ++ [Event.audioStart]) s).gate.timerStartCount =
      s.gate.timerStartCount ∧
    (runEnd cfg (userPairs n ++ [Event.audioStart, Event.audioStopped]) s).gate.timerStartCount =
      s.gate.timerStartCount + 1 := by
  refine ⟨userPairs_count cfg n s, ?_, ?_⟩
  · rw [runEnd_append]
    show (stepEnd cfg .audioStart (runEnd cfg (userPairs n) s)).gate.timerStartCount = _
    rw [stepEnd_audioStart_count, userPairs_count]
  · rw [runEnd_append]
    show (stepEnd cfg .audioStopped
      (stepEnd cfg .audioStart (runEnd cfg (userPairs n) s))).gate.timerStartCount = _
    rw [stepEnd_audioStopped_count, stepEnd_audioStart_count, userPairs_count]

/-- C7: when the trigger phrase occurs case-insensitively in the lower-cased
transcript and no conversation is active (the two gate flags agreeing, as
they do in every reachable state), exactly one wake transition occurs: the
wake callback fires exactly once, the listening device is stopped, one
confirmation tone is played, a fresh full-duration silence timer is started,
the conversation becomes active, and the link is untouched. -/
theorem wake_transition_effects (cfg : Config) (s : SystemState) (raw : String)
    (h1 : s.gate.conversationActive = false)
    (h2 : s.gate.wakeWordDetected = s.gate.conversationActive)
    (hA : s.gate.recognitionAvailable = true)
    (hm : matchesWake cfg raw = true) :
    (stepEnd cfg (.transcript raw) s).gate.wakeCallbackCount =
      s.gate.wakeCallbackCount + 1 ∧
    (stepEnd cfg (.transcript raw) s).gate.recognitionRunning = false ∧
    (stepEnd cfg (.transcript raw) s).gate.toneCount = s.gate.toneCount + 1 ∧
    (stepEnd cfg (.transcript raw) s).gate.silenceTimer = some cfg.silenceTimeoutMs ∧
    (stepEnd cfg (.transcript raw) s).gate.conversationActive = true ∧
    (stepEnd cfg (.transcript raw) s).link = s.link := by
  rw [h1] at h2
  simp [stepEnd, eventTrace, handleSpeechResultSys, h1, h2, hm, wakeTraceSys,
    hA, resetSilenceTimer]

/-- C7 witness: the wake transition at the configured phrase "guy" and the
transcript "hey guy" from the freshly mounted idle state. -/
theorem wake_transition_effects_witness :
    (stepEnd { wakeWord := "guy" } (.transcript "hey guy")
        (initSystem true)).gate.wakeCallbackCount =
      (initSystem true).gate.wakeCallbackCount + 1 :=
  (wake_transition_effects { wakeWord := "guy" } (initSystem true) "hey guy"
    rfl rfl rfl (by decide)).1

/-- C10: in every reachable state of the wake-word gate the two flags
`wakeWordDetected` and `conversationActive` are equal — every event either
sets both (wake match), clears both (timer expiry, stop), or touches
neither. -/
theorem wake_conversation_flags_agree (cfg : Config) (avail : Bool)
    (evs : List Event) :
    (runEnd cfg evs (initSystem avail)).gate.wakeWordDetected =
      (runEnd cfg evs (initSystem avail)).gate.conversationActive := by
  suffices h : ∀ s : SystemState,
      s.gate.wakeWordDetected = s.gate.conversationActive →
      (runEnd cfg evs s).gate.wakeWordDetected =
        (runEnd cfg evs s).gate.conversationActive by
    exact h _ (by cases avail <;> rfl)
  induction evs with
  | nil => exact fun s hs => hs
  | cons e es ih => exact fun s hs => ih _ (stepEnd_flags_agree cfg e s hs)

/-- C9: `disconnect()` is idempotent and total — from every link state it
leaves status Disconnected, no session object and the connect lock cleared,
and applying it twice equals applying it once. -/
theorem disconnect_idempotent_total (l : LinkState) :
    (disconnect l).status = Status.Disconnected ∧
    (disconnect l).session = none ∧
    (disconnect l).connectLock = false ∧
    disconnect (disconnect l) = disconnect l := by
  simp [disconnect, LinkState.status]

end TourGuide
